import Mathlib

/-!
Verification of the TofCScraper pipeline (src/TofCScraper.py).

The program is a three-stage scraping pipeline. The pure logic of each
stage (CSV row handling, HTML/MARCXML field extraction, retry policy,
statistics updates and per-row output construction) is embedded below as
executable Lean definitions, translated from the source. Network fetches
and parsers are modelled by explicit oracle parameters: each fetch site
takes the fetched (already parsed) document, or a failure marker, as an
argument, and functions that perform several fetches take one argument
per fetch site. Traces of network activity are recorded as explicit
event lists where a claim is about network behaviour.

Python string operations are modelled on `List Char` (ASCII model of
`str.strip`, `str.lower`, `in`, `endswith`, `split` and of the regular
expressions the source uses).
-/

namespace TofC

/-! ## Python string primitives -/

/-- Whitespace characters stripped by Python `str.strip()`. -/
def pyWs (c : Char) : Bool :=
  c = ' ' || c = '\t' || c = '\n' || c = '\r' || c = '\x0b' || c = '\x0c'

/-- Strip leading and trailing whitespace from a character list. -/
def stripC (l : List Char) : List Char :=
  ((l.dropWhile pyWs).reverse.dropWhile pyWs).reverse

/-- Python `str.strip()`. -/
def pyStrip (s : String) : String := ⟨stripC s.data⟩

/-- Python `str.lower()` (ASCII model). -/
def pyLower (s : String) : String := ⟨s.data.map Char.toLower⟩

/-- Does list `s` start with list `p`? -/
def leadsWith : List Char → List Char → Bool
  | [], _ => true
  | _ :: _, [] => false
  | a :: as, b :: bs => a = b && leadsWith as bs

/-- Does `s` contain `p` as a contiguous sublist? (Python `p in s`.) -/
def hasSubC (p : List Char) : List Char → Bool
  | [] => p.isEmpty
  | c :: t => leadsWith p (c :: t) || hasSubC p t

/-- Python `p in s` on strings. -/
def hasSub (p s : String) : Bool := hasSubC p.data s.data

/-- Python `s.endswith(p)`. -/
def endsWithC (p s : List Char) : Bool := leadsWith p.reverse s.reverse

/-- Python `s.endswith(p)` on strings. -/
def pyEndsWith (s p : String) : Bool := endsWithC p.data s.data

/-- Characters kept by `re.sub(r'[^0-9X]', '', s)` / `re.sub(r'[^\dX]', '', s)`:
the ISBN cleaning used in stage 1 and stage 2. -/
def keepDigX (s : String) : String := ⟨s.data.filter (fun c => c.isDigit || c = 'X')⟩

/-- First maximal digit run of a character list (`re.search(r'(\d+)', s)`). -/
def firstDigitRunC : List Char → Option (List Char)
  | [] => none
  | c :: t => if c.isDigit then some (c :: t.takeWhile Char.isDigit) else firstDigitRunC t

/-- Is `s` a non-empty all-digit string? -/
def digitsOnly (s : String) : Bool := !s.data.isEmpty && s.data.all Char.isDigit

/-- First whitespace-separated token of a string (`s.split()[0]`), `none` when
Python would raise `IndexError` because `s.split()` is empty. -/
def firstTok (l : List Char) : Option (List Char) :=
  let l2 := l.dropWhile pyWs
  if l2.isEmpty then none else some (l2.takeWhile (fun c => !pyWs c))

/-- Search for literal `lit` immediately followed by at least one digit and
return the maximal digit run after it: the model of
`re.search(r'lit(\d+)', s)` for a literal pattern prefix. A literal
occurrence not followed by a digit is skipped, as the regex engine would. -/
def litRun (lit : List Char) : List Char → Option (List Char)
  | [] => none
  | c :: t =>
    if leadsWith lit (c :: t) then
      let run := ((c :: t).drop lit.length).takeWhile Char.isDigit
      if run.isEmpty then litRun lit t else some run
    else litRun lit t

/-- Python regex word character (ASCII model of `\w`). -/
def wordChar (c : Char) : Bool := c.isAlphanum || c = '_'

/-- Model of `re.search(r'\b\d{8,}\b', s)`: the first maximal digit run of
length at least 8 whose neighbours are not word characters. `prev` is the
character just before the current position (`none` at the start). -/
def find8Run : Option Char → List Char → Option (List Char)
  | _, [] => none
  | prev, c :: t =>
    if c.isDigit && (match prev with | none => true | some p => !wordChar p) then
      let run := c :: t.takeWhile Char.isDigit
      let rest := t.dropWhile Char.isDigit
      if 8 ≤ run.length && (match rest with | [] => true | r :: _ => !wordChar r) then
        some run
      else find8Run (some c) t
    else find8Run (some c) t

/-- Join a list of strings with a separator (Python `sep.join(l)`). -/
def joinSep (sep : String) : List String → String
  | [] => ""
  | [x] => x
  | x :: y :: t => x ++ sep ++ joinSep sep (y :: t)

/-! ## HTML document model (BeautifulSoup views used by the source)

An HTML document is a forest of nodes; an element node carries its tag
name, the tokens of its `class` attribute, and its other attributes.
`find_all`/`find` search elements in document (preorder) order;
`.text` concatenates all descendant text nodes. -/

/-- A parsed HTML node: a text node or an element. -/
inductive Node where
  | txt (s : String)
  | el (tag : String) (classes : List String) (attrs : List (String × String))
       (kids : List Node)

/-- Attribute lookup in an association list (first match).  -/
def lookupA : List (String × String) → String → Option String
  | [], _ => none
  | (a, b) :: t, k => if a = k then some b else lookupA t k

mutual
/-- Concatenated text of a node (BeautifulSoup `.text`). -/
def nodeText : Node → List Char
  | .txt s => s.data
  | .el _ _ _ ks => forestText ks
/-- Concatenated text of a forest of nodes. -/
def forestText : List Node → List Char
  | [] => []
  | n :: ns => nodeText n ++ forestText ns
end

/-- Text of a node as a string. -/
def textStr (n : Node) : String := ⟨nodeText n⟩

mutual
/-- All element nodes of a tree in document order, the root included. -/
def elemsOf : Node → List Node
  | .txt _ => []
  | .el t c a ks => .el t c a ks :: elemsForest ks
/-- All element nodes of a forest in document order. -/
def elemsForest : List Node → List Node
  | [] => []
  | n :: ns => elemsOf n ++ elemsForest ns
end

/-- All element descendants of a node (the node itself excluded), as
BeautifulSoup `element.find_all` / `element.find` search them. -/
def descEls : Node → List Node
  | .txt _ => []
  | .el _ _ _ ks => elemsForest ks

/-- Tag name of a node (empty for a text node). -/
def tagOf : Node → String
  | .txt _ => ""
  | .el t _ _ _ => t

/-- Class tokens of a node. -/
def classesOf : Node → List String
  | .txt _ => []
  | .el _ c _ _ => c

/-- Attribute of a node. -/
def attrOf (n : Node) (k : String) : Option String :=
  match n with
  | .txt _ => none
  | .el _ _ a _ => lookupA a k

/-- Does the node match `find(tag, class_=cls)`? -/
def matchTC (t c : String) (n : Node) : Bool :=
  tagOf n = t && (classesOf n).contains c

/-- Does the node match `find(tag, attr=v)` for a plain attribute? -/
def matchTA (t k v : String) (n : Node) : Bool :=
  tagOf n = t && attrOf n k = some v

/-- Whole-document `soup.find_all(tag, class_=cls)`. -/
def findAllTC (doc : List Node) (t c : String) : List Node :=
  (elemsForest doc).filter (matchTC t c)

/-- In-element `element.find(tag, class_=cls)`. -/
def findTC (n : Node) (t c : String) : Option Node :=
  ((descEls n).filter (matchTC t c)).head?

/-- In-element `element.find(tag, attr=v)`. -/
def findTA (n : Node) (t k v : String) : Option Node :=
  ((descEls n).filter (matchTA t k v)).head?

/-- First value of `f` over a list: the model of a Python `for` loop whose
body `return`s as soon as it finds a value. -/
def firstSome : List α → (α → Option β) → Option β
  | [], _ => none
  | x :: t, f => match f x with
    | some v => some v
    | none => firstSome t f

/-! ## Stage 2: the four LCCN extraction strategies
(`extract_lccn_from_html`, src/TofCScraper.py lines 423-468). -/

/-- Strategy (a): an `items-wrapper` div whose `h3.item-title` text strips to
exactly `LCCN`; read the `span[dir=ltr]` inside its `ul.item-description`. -/
def lccnTry1 (doc : List Node) : Option String :=
  firstSome (findAllTC doc "div" "items-wrapper") (fun w =>
    match findTC w "h3" "item-title" with
    | none => none
    | some h =>
      if pyStrip (textStr h) = "LCCN" then
        match findTC w "ul" "item-description" with
        | none => none
        | some d =>
          match findTA d "span" "dir" "ltr" with
          | none => none
          | some sp => some (pyStrip (textStr sp))
      else none)

/-- Strategy (b): an `items-wrapper` div whose `h3.item-title` text contains
`LCCN Permalink`; extract the digits of an `lccn.loc.gov/` permalink URL from
the `a#permalink` inside its `ul.item-description`. -/
def lccnTry2 (doc : List Node) : Option String :=
  firstSome (findAllTC doc "div" "items-wrapper") (fun w =>
    match findTC w "h3" "item-title" with
    | none => none
    | some h =>
      if hasSub "LCCN Permalink" (textStr h) then
        match findTC w "ul" "item-description" with
        | none => none
        | some d =>
          match findTA d "a" "id" "permalink" with
          | none => none
          | some link =>
            match attrOf link "href" with
            | none => none
            | some href => (litRun "lccn.loc.gov/".data href.data).map (⟨·⟩)
      else none)

/-- Strategy (c): the `rft.lccn=` digits of the `title` attribute of the first
`span.Z3988` COinS marker. -/
def lccnTry3 (doc : List Node) : Option String :=
  match (findAllTC doc "span" "Z3988").head? with
  | none => none
  | some z =>
    match attrOf z "title" with
    | none => none
    | some t => (litRun "rft.lccn=".data t.data).map (⟨·⟩)

/-- Strategy (d): inside the first `div.content-container`, scan every `div`
whose text contains the literal `LCCN` for a run of 8 or more digits. -/
def lccnTry4 (doc : List Node) : Option String :=
  match (findAllTC doc "div" "content-container").head? with
  | none => none
  | some cc =>
    firstSome ((descEls cc).filter (fun n => tagOf n = "div")) (fun d =>
      if hasSub "LCCN" (textStr d) then
        (find8Run none (nodeText d)).map (fun r => pyStrip ⟨r⟩)
      else none)

/-- The four-strategy LCCN extractor of stage 2: the strategies are tried in
order and the first one that returns a value wins. -/
def extract_lccn_from_html (doc : List Node) : Option String :=
  match lccnTry1 doc with
  | some v => some v
  | none =>
    match lccnTry2 doc with
    | some v => some v
    | none =>
      match lccnTry3 doc with
      | some v => some v
      | none => lccnTry4 doc

/-! ## Stage 1: CSV parsing (`parse_csv`, lines 145-185) -/

/-- A catalog record produced by the record loader: the (possibly digit-run
reduced) identifier and the trimmed title. -/
structure CatalogRecord where
  bibid : String
  title : String
deriving DecidableEq

/-- Header scan of `parse_csv`: the index of the last header containing
`BibID` (case-sensitive) and of the last remaining header whose lowercase
form contains `title`; an empty header cell matches neither. -/
def findCols (headers : List String) : Option Nat × Option Nat :=
  headers.enum.foldl
    (fun acc p =>
      if p.2 ≠ "" && hasSub "BibID" p.2 then (some p.1, acc.2)
      else if p.2 ≠ "" && hasSub "title" (pyLower p.2) then (acc.1, some p.1)
      else acc)
    (none, none)

/-- The identifier reduction of `parse_csv`: `re.search(r'(\d+)', bibid)`
replaces the cell text by its first digit run when one exists; otherwise
the raw (trimmed) text is kept. -/
def bibidOf (cell : String) : String :=
  match firstDigitRunC cell.data with
  | some r => ⟨r⟩
  | none => cell

/-- Row handling of `parse_csv`: a row with enough columns and a non-empty
trimmed identifier cell yields one record whose identifier is the first
digit run of the cell when one exists, and the raw trimmed cell otherwise. -/
def parseCsvRow (bibidCol titleCol : Nat) (row : List String) : Option CatalogRecord :=
  if max bibidCol titleCol < row.length then
    let bibid := pyStrip (row.getD bibidCol "")
    let title := pyStrip (row.getD titleCol "")
    if bibid ≠ "" then some ⟨bibidOf bibid, title⟩ else none
  else none

/-- The record loader `parse_csv`: locate the two columns, convert each data
row, fail when a column is missing or no record was produced. -/
def parse_csv (headers : List String) (rows : List (List String)) :
    Except String (List CatalogRecord) :=
  match findCols headers with
  | (some b, some t) =>
    let recs := rows.filterMap (parseCsvRow b t)
    if recs.isEmpty then .error "No valid records found in the CSV file."
    else .ok recs
  | _ => .error "Could not find BibID and/or title columns in the CSV file."

/-! ## Stage 1: OPAC record scrape (`scrape_catalog_record`, lines 187-247)

The scraped detail page is modelled by the access structure the code
walks: the list of `th.marc_tag_col` cells, each with its text and with
the `span` items of the sibling `td.marc_subfields` cell of its row (a
span item is the span's text plus its `next_sibling`, which may be a
text node, an element, or absent). Exceptions raised while processing
(`AttributeError` when `next_sibling` has no `strip`, `IndexError` when
`''.split()[0]` is taken) are modelled in an `Except String` monad and
caught by the per-record handler, which returns empty lists plus the
message. The single `requests.get` is modelled by the `fetched` argument
(`.error` = the fetch or parse itself raised). -/

/-- The `next_sibling` of a subfield marker span. -/
inductive Sib where
  | str (s : String)
  | tagNode
  | absent
/-- A `span` inside a `td.marc_subfields` cell, with its following sibling. -/
structure SpanI where
  text : String
  sib : Sib
/-- One `th.marc_tag_col` cell: its text and, when the parent row has a
`td.marc_subfields` cell, that cell's spans. -/
structure TagRow where
  tagText : String
  subs : Option (List SpanI)
/-- A scraped OPAC detail page, as accessed by the code. -/
abbrev OpacPage := List TagRow

/-- `span.next_sibling.strip()`: raises unless the sibling is a text node. -/
def sibStrip : Sib → Except String String
  | .str s => .ok (pyStrip s)
  | .tagNode => .error "AttributeError: Tag object has no attribute strip"
  | .absent => .error "AttributeError: NoneType object has no attribute strip"

/-- Process the spans of an 020 row: each span whose stripped text ends in
`a` contributes the non-digit-stripped sibling text when non-empty. -/
def isbnSpans (acc : List String) : List SpanI → Except String (List String)
  | [] => .ok acc
  | sp :: t => do
    let acc2 ←
      if pyEndsWith (pyStrip sp.text) "a" then do
        let v ← sibStrip sp.sib
        let isbn := keepDigX v
        pure (if isbn ≠ "" then acc ++ [isbn] else acc)
      else pure acc
    isbnSpans acc2 t

/-- Process the spans of an 010 row: each span whose stripped text ends in
`a` contributes the first whitespace token of the sibling text;
`value.split()[0]` raises `IndexError` when the stripped value is empty. -/
def lccnSpans (acc : List String) : List SpanI → Except String (List String)
  | [] => .ok acc
  | sp :: t => do
    let acc2 ←
      if pyEndsWith (pyStrip sp.text) "a" then do
        let v ← sibStrip sp.sib
        match firstTok v.data with
        | none => Except.error "IndexError: list index out of range"
        | some tok =>
          let lccn := pyStrip ⟨tok⟩
          pure (if lccn ≠ "" then acc ++ [lccn] else acc)
      else pure acc
    lccnSpans acc2 t

/-- One `marc_tag_col` iteration of `scrape_catalog_record`. -/
def tagRowStep (acc : List String × List String) (row : TagRow) :
    Except String (List String × List String) :=
  let t := pyStrip row.tagText
  if t = "020" then
    match row.subs with
    | none => .ok acc
    | some sps => do
      let isbns ← isbnSpans acc.1 sps
      pure (isbns, acc.2)
  else if t = "010" then
    match row.subs with
    | none => .ok acc
    | some sps => do
      let lccns ← lccnSpans acc.2 sps
      pure (acc.1, lccns)
  else .ok acc

/-- The result of scraping one catalog record. -/
structure ScrapeRes where
  isbns : List String
  lccns : List String
  err : Option String
deriving DecidableEq

/-- A network/sleep event (a `sleep q` event records a `time.sleep` of `q`
seconds). -/
inductive Ev where
  | get
  | sleep (q : ℚ)
deriving DecidableEq

/-- Number of network fetches in a trace. -/
def fetches : List Ev → Nat
  | [] => 0
  | .get :: t => fetches t + 1
  | .sleep _ :: t => fetches t

/-- The sleeps of a trace, in order. -/
def naps : List Ev → List ℚ
  | [] => []
  | .get :: t => naps t
  | .sleep q :: t => q :: naps t

/-- The `try` body of `scrape_catalog_record`: fetch, then walk the tag rows
in document order, accumulating ISBNs and LCCNs. -/
def scrapeBody (fetched : Except String OpacPage) :
    Except String (List String × List String) := do
  let page ← fetched
  page.foldlM tagRowStep ([], [])

/-- `scrape_catalog_record`: one fetch; any exception — in the fetch or
mid-walk — is caught and yields empty identifier lists together with the
error string. -/
def scrape_catalog_record (fetched : Except String OpacPage) :
    ScrapeRes × List Ev :=
  match scrapeBody fetched with
  | .ok (i, l) => (⟨i, l, none⟩, [.get])
  | .error e => (⟨[], [], some e⟩, [.get])

/-! ## Stage 1: statistics (`process_catalog_records`, lines 267-288) -/

/-- The five stage-1 counters. -/
structure S1Delta where
  errs : Nat
  both : Nat
  isbn : Nat
  lccn : Nat
  neither : Nat
deriving DecidableEq

/-- Python truthiness of the per-record error value (`if error:`). -/
def errTruthy (r : ScrapeRes) : Bool :=
  match r.err with
  | some s => s ≠ ""
  | none => false

/-- Per-record stats update of `process_catalog_records`: error takes
precedence; a record with both identifiers increments the `both`, `isbn`
and `lccn` counters; otherwise exactly the matching counter. -/
def stage1Delta (r : ScrapeRes) : S1Delta :=
  if errTruthy r then ⟨1, 0, 0, 0, 0⟩
  else if !r.isbns.isEmpty && !r.lccns.isEmpty then ⟨0, 1, 1, 1, 0⟩
  else if !r.isbns.isEmpty then ⟨0, 0, 1, 0, 0⟩
  else if !r.lccns.isEmpty then ⟨0, 0, 0, 1, 0⟩
  else ⟨0, 0, 0, 0, 1⟩

/-- How many of the five stage-1 counters a delta touches. -/
def countPos5 (d : S1Delta) : Nat :=
  (if 0 < d.errs then 1 else 0) + (if 0 < d.both then 1 else 0) +
    (if 0 < d.isbn then 1 else 0) + (if 0 < d.lccn then 1 else 0) +
    (if 0 < d.neither then 1 else 0)

/-! ## Stage 2: per-record processing (`run_stage2`, lines 337-405)

The two lookup helpers are abstracted in the per-record step by oracle
functions from the search key to the value `scrape_lccn_by_isbn` /
`scrape_lccn_by_title` would return (the helpers themselves are modelled
below with explicit traces). Python treats a returned empty string as a
failed lookup (`if not found_lccn:`), which `pyFound` reproduces. -/

/-- A row of a stage CSV (the `BibID`, `Title`, `ISBN`, `LCCN` columns). -/
structure CsvRow where
  bibid : String
  title : String
  isbn : String
  lccn : String
deriving DecidableEq

/-- Python truthiness of a lookup result: `None` and `""` are failures. -/
def pyFound : Option String → Option String
  | some "" => none
  | o => o

/-- What `run_stage2` does with one input record: drop, pass through, or
look up. The result carries the output row (if any), the stage-2 stats
delta, and whether the record reached the network-lookup path. -/
structure Stage2Step where
  out : Option CsvRow
  req : Nat
  isbnOk : Nat
  titleOk : Nat
  failed : Nat
  lookedUp : Bool
deriving DecidableEq

/-- The loop body of `run_stage2` for one record: rows without a title are
dropped; a non-empty trimmed LCCN passes through (trimmed); no ISBN means
keep with empty LCCN; otherwise count the lookup and try the ISBN search,
then the title search, counting exactly one outcome. -/
def run_stage2_step (isbnFind titleFind : String → Option String) (r : CsvRow) :
    Stage2Step :=
  if r.title = "" then ⟨none, 0, 0, 0, 0, false⟩
  else if pyStrip r.lccn ≠ "" then
    ⟨some ⟨r.bibid, r.title, r.isbn, pyStrip r.lccn⟩, 0, 0, 0, 0, false⟩
  else if pyStrip r.isbn = "" then
    ⟨some ⟨r.bibid, r.title, r.isbn, ""⟩, 0, 0, 0, 0, false⟩
  else
    match pyFound (isbnFind r.isbn) with
    | some l => ⟨some ⟨r.bibid, r.title, r.isbn, l⟩, 1, 1, 0, 0, true⟩
    | none =>
      match pyFound (titleFind r.title) with
      | some l => ⟨some ⟨r.bibid, r.title, r.isbn, l⟩, 1, 0, 1, 0, true⟩
      | none => ⟨some ⟨r.bibid, r.title, r.isbn, ""⟩, 1, 0, 0, 1, true⟩

/-! ## Stage 2: the two search helpers with retry policy
(`scrape_lccn_by_isbn` lines 470-503, `scrape_lccn_by_title` lines 505-552).

Each attempted fetch is described by an oracle outcome: the parsed result
page, a `requests.RequestException`, or any other exception. -/

/-- Outcome of one attempted HTML fetch. -/
inductive FetchOut where
  | ok (doc : List Node)
  | reqErr
  | exn

/-- The retry loop of `scrape_lccn_by_isbn`: attempt `a` (0-based) of a
budget of `r` remaining attempts. A successful fetch returns the extractor
result at once; a `RequestException` before the last attempt sleeps
`delay * (a+1)` and retries; any other exception aborts. -/
def isbnRetryLoop (oracle : Nat → FetchOut) (delay : ℚ) :
    Nat → Nat → Option String × List Ev
  | _, 0 => (none, [])
  | a, r + 1 =>
    match oracle a with
    | .ok doc => (extract_lccn_from_html doc, [.get])
    | .exn => (none, [.get])
    | .reqErr =>
      if r = 0 then (none, [.get])
      else
        let rest := isbnRetryLoop oracle delay (a + 1) r
        (rest.1, .get :: .sleep (delay * ((a : ℚ) + 1)) :: rest.2)

/-- `scrape_lccn_by_isbn`: clean the ISBN to digits and `X`; an empty
cleaned ISBN makes no network call; otherwise run the bounded retry loop
with `max_retries` attempts. -/
def scrape_lccn_by_isbn (oracle : Nat → FetchOut) (delay : ℚ) (maxRetries : Nat)
    (isbn : String) : Option String × List Ev :=
  if keepDigX isbn = "" then (none, [])
  else isbnRetryLoop oracle delay 0 maxRetries

/-- `scrape_lccn_by_title`: one search fetch, never retried; when the result
page is a `table.browseList` result list, follow the first
`a.browse-result` link (one more fetch, after a `delay` sleep, also never
retried); a result page that is itself a detail page is extracted
directly; any exception yields `None`. `searchOut` and `detailOut` are the
outcomes of the two possible fetches. -/
def scrape_lccn_by_title (searchOut detailOut : FetchOut) (delay : ℚ)
    (title : String) : Option String × List Ev :=
  if pyStrip title = "" then (none, [])
  else
    match searchOut with
    | .reqErr => (none, [.get])
    | .exn => (none, [.get])
    | .ok doc =>
      match (findAllTC doc "table" "browseList").head? with
      | none => (extract_lccn_from_html doc, [.get])
      | some tbl =>
        match findTC tbl "a" "browse-result" with
        | none => (none, [.get])
        | some link =>
          match attrOf link "href" with
          | none => (none, [.get])
          | some _ =>
            match detailOut with
            | .ok ddoc => (extract_lccn_from_html ddoc, [.get, .sleep delay, .get])
            | .reqErr => (none, [.get, .sleep delay, .get])
            | .exn => (none, [.get, .sleep delay, .get])

/-! ## Stage 3: MARCXML model and `extract_505_field` (lines 632-723)

A parsed `xml.etree.ElementTree` element: tag (namespaced tags are spelt
with braces, as ElementTree spells them), attributes, text and children.
`.//tag` searches every descendant, `./tag` the direct children,
`iter()` the element itself plus every descendant, in document order. -/

/-- A parsed XML element. -/
inductive XmlE where
  | mk (tag : String) (attrs : List (String × String)) (txt : String)
       (kids : List XmlE)

/-- Tag of an element. -/
def xTag : XmlE → String
  | .mk t _ _ _ => t

/-- Attributes of an element. -/
def xAttrs : XmlE → List (String × String)
  | .mk _ a _ _ => a

/-- Text of an element (`element.text or ""`). -/
def xText : XmlE → String
  | .mk _ _ s _ => s

/-- Children of an element. -/
def xKids : XmlE → List XmlE
  | .mk _ _ _ ks => ks

mutual
/-- The element and all its descendants, in document order (`iter()`). -/
def xIter : XmlE → List XmlE
  | .mk t a s ks => .mk t a s ks :: xIterForest ks
/-- All elements of a forest, in document order. -/
def xIterForest : List XmlE → List XmlE
  | [] => []
  | e :: es => xIter e ++ xIterForest es
end

/-- All proper descendants of an element (`.//` search space). -/
def xDesc (e : XmlE) : List XmlE := xIterForest (xKids e)

/-- `element.get(key)`. -/
def xGet (e : XmlE) (k : String) : Option String := lookupA (xAttrs e) k

/-- The namespace `extract_505_field` registers: the brace-delimited part of
the root tag when present, else the MARC21 slim namespace from the
initial `namespaces` dict. -/
def detectNs (root : XmlE) : String :=
  if (xTag root).data.contains '}' then
    ⟨((xTag root).data.takeWhile (fun c => c ≠ '}')).drop 1⟩
  else "http://www.loc.gov/MARC21/slim"

/-- A namespace-qualified tag as ElementTree spells it. -/
def nsTag (ns loc : String) : String := "\x7b" ++ ns ++ "\x7d" ++ loc

/-- The three-tier 505-field lookup: unqualified `.//datafield[@tag='505']`,
then the namespace-qualified form, then a full `iter()` scan for a tag
ending in `datafield` with attribute `tag='505'`. -/
def fields505 (ns : String) (root : XmlE) : List XmlE :=
  let t1 := (xDesc root).filter
    (fun e => xTag e = "datafield" && xGet e "tag" = some "505")
  if !t1.isEmpty then t1 else
  let t2 := (xDesc root).filter
    (fun e => xTag e = nsTag ns "datafield" && xGet e "tag" = some "505")
  if !t2.isEmpty then t2 else
  (xIter root).filter
    (fun e => pyEndsWith (xTag e) "datafield" && xGet e "tag" = some "505")

/-- The three-tier subfield lookup inside one 505 field: direct `subfield`
children, then namespace-qualified children, then a full `iter()` scan
for tags ending in `subfield`. -/
def subfields505 (ns : String) (f : XmlE) : List XmlE :=
  let s1 := (xKids f).filter (fun e => xTag e = "subfield")
  if !s1.isEmpty then s1 else
  let s2 := (xKids f).filter (fun e => xTag e = nsTag ns "subfield")
  if !s2.isEmpty then s2 else
  (xIter f).filter (fun e => pyEndsWith (xTag e) "subfield")

/-- Joined contents of one 505 field: the stripped texts of its subfields
with code `a`, `g`, `t` or `r`, empty texts dropped, joined by a space;
`none` when nothing qualifies. -/
def field505Content (ns : String) (f : XmlE) : Option String :=
  let fc := (subfields505 ns f).filterMap (fun sf =>
    let code := (xGet sf "code").getD ""
    if code = "a" || code = "g" || code = "t" || code = "r" then
      let c := pyStrip (xText sf)
      if c ≠ "" then some c else none
    else none)
  if fc.isEmpty then none else some (joinSep " " fc)

/-- `extract_505_field` on a parsed document: `none` when no 505 field is
found by any tier; the empty string when fields exist but no qualifying
subfield text does; else the newline-join of the per-field contents. -/
def extract_505_field (root : XmlE) : Option String :=
  let ns := detectNs root
  let fs := fields505 ns root
  if fs.isEmpty then none
  else
    let contents := fs.filterMap (field505Content ns)
    some (if contents.isEmpty then "" else joinSep "\n" contents)

/-- `extract_505_field` on the fetched body: an empty body or a parse/
processing exception (modelled by `none`) yields `None`, as the
`if not xml_content` guard and the `except` handler do. -/
def extract_505_opt : Option XmlE → Option String
  | none => none
  | some root => extract_505_field root

/-! ## Stage 3: input filter and output rows
(`read_lccn_file` lines 577-606, `process_505_entries` lines 725-803). -/

/-- `read_lccn_file`: keep only rows whose trimmed title and trimmed LCCN
are both non-empty, with every field trimmed. -/
def read_lccn_file (rows : List CsvRow) : List CsvRow :=
  rows.filterMap (fun r =>
    let title := pyStrip r.title
    let lccn := pyStrip r.lccn
    if title ≠ "" && lccn ≠ "" then
      some ⟨pyStrip r.bibid, title, pyStrip r.isbn, lccn⟩
    else none)

/-- A row of the final output table. -/
structure OutRow where
  bibid : String
  title : String
  isbn : String
  lccn : String
  status : String
  content : String
deriving DecidableEq

/-- Outcome of `fetch_marcxml` (lines 608-620): parsed body of a 200
response (`none` inside when the body is empty or parsing raises),
a non-200 response, or a transport exception. -/
inductive MarcOut where
  | ok (body : Option XmlE)
  | httpErr
  | exn

/-- `fetch_marcxml`: always exactly one fetch; a non-200 status or an
exception yields `None`. -/
def fetch_marcxml (m : MarcOut) : Option (Option XmlE) × List Ev :=
  match m with
  | .ok body => (some body, [.get])
  | .httpErr => (none, [.get])
  | .exn => (none, [.get])

/-- The loop body of `process_505_entries` for one entry: an entry without
an LCCN is written straight out with status `No LCCN available` and no
fetch; otherwise the MARCXML for the LCCN is fetched (`oracle` maps the
LCCN to the `fetch_marcxml` result) and the status and content cells are
set from the extraction result. Exactly one output row per entry. -/
def process_505_entry (oracle : String → Option (Option XmlE)) (e : CsvRow) :
    OutRow :=
  if e.lccn = "" then
    ⟨e.bibid, e.title, e.isbn, e.lccn, "No LCCN available", ""⟩
  else
    match oracle e.lccn with
    | none => ⟨e.bibid, e.title, e.isbn, e.lccn, "Page not found or error", ""⟩
    | some body =>
      match extract_505_opt body with
      | none => ⟨e.bibid, e.title, e.isbn, e.lccn, "No 505 tag found", ""⟩
      | some c =>
        if c = "" then ⟨e.bibid, e.title, e.isbn, e.lccn, "Empty 505 tag", ""⟩
        else ⟨e.bibid, e.title, e.isbn, e.lccn, "Found", c⟩

/-- `process_505_entries`: one output row per entry, in order. -/
def process_505_entries (oracle : String → Option (Option XmlE))
    (entries : List CsvRow) : List OutRow :=
  entries.map (process_505_entry oracle)

/-- Stage 3 end to end on the input table: filter with `read_lccn_file`,
then emit one row per surviving entry. -/
def run_stage3_rows (oracle : String → Option (Option XmlE))
    (rows : List CsvRow) : List OutRow :=
  process_505_entries oracle (read_lccn_file rows)

/-- The five status strings the final table can carry. -/
def statusList : List String :=
  ["No LCCN available", "Page not found or error", "No 505 tag found",
   "Empty 505 tag", "Found"]

/-! ## Lemmas about digit runs -/

/-- A first digit run is non-empty and all digits. -/
theorem firstDigitRunC_digits :
    ∀ l r, firstDigitRunC l = some r → r ≠ [] ∧ r.all Char.isDigit = true := by
  intro l
  induction l with
  | nil => intro r h; simp [firstDigitRunC] at h
  | cons c t ih =>
    intro r h
    by_cases hc : c.isDigit
    · rw [firstDigitRunC, if_pos hc] at h
      cases h
      refine ⟨by simp, ?_⟩
      simp only [List.all_cons, Bool.and_eq_true]
      exact ⟨hc, List.all_eq_true.mpr fun a ha => List.mem_takeWhile_imp ha⟩
    · rw [firstDigitRunC, if_neg hc] at h
      exact ih r h

/-- A list with no digit has no first digit run. -/
theorem firstDigitRunC_none :
    ∀ l : List Char, l.any Char.isDigit = false → firstDigitRunC l = none := by
  intro l
  induction l with
  | nil => intro _; rfl
  | cons c t ih =>
    intro h
    simp only [List.any_cons, Bool.or_eq_false_iff] at h
    rw [firstDigitRunC, if_neg (by simp [h.1]), ih h.2]

/-- A list with a digit has a first digit run. -/
theorem firstDigitRunC_some :
    ∀ l : List Char, l.any Char.isDigit = true → (firstDigitRunC l).isSome := by
  intro l
  induction l with
  | nil => intro h; simp at h
  | cons c t ih =>
    intro h
    by_cases hc : c.isDigit
    · rw [firstDigitRunC, if_pos hc]; rfl
    · rw [firstDigitRunC, if_neg hc]
      simp only [List.any_cons, hc, Bool.false_or] at h
      exact ih h

/-! ## C1 -/

/-- C1: refuted on the code — a stage-3 input row with a non-empty title but
an empty LCCN is dropped by `read_lccn_file` (its `if title and lccn`
filter), so no row at all reaches the final output for it, even though the
`No LCCN available` branch of `process_505_entries` exists for exactly this
case (and is therefore unreachable). -/
theorem stage3_drops_titled_row_without_lccn :
    read_lccn_file [⟨"1", "T", "", ""⟩] = [] ∧
    run_stage3_rows (fun _ => none) [⟨"1", "T", "", ""⟩] = [] ∧
    (process_505_entry (fun _ => none) ⟨"1", "T", "", ""⟩).status =
      "No LCCN available" :=
  ⟨rfl, rfl, rfl⟩

/-! ## C2 -/

/-- C2 counterexample: an accepted row whose identifier cell contains no
digit keeps the raw text as its record identifier, which is not a digit
string. -/
theorem parse_csv_nondigit_bibid_cex :
    parse_csv ["BibID", "Title"] [["abc", "T"]] =
      .ok [{ bibid := "abc", title := "T" }] ∧
    digitsOnly "abc" = false :=
  ⟨rfl, rfl⟩

/-- The identifier reduction never produces an empty identifier from a
non-empty cell. -/
theorem bibidOf_ne (cell : String) (h : cell ≠ "") : bibidOf cell ≠ "" := by
  unfold bibidOf
  cases hr : firstDigitRunC cell.data with
  | none => exact h
  | some r =>
    obtain ⟨hne, _⟩ := firstDigitRunC_digits _ _ hr
    intro hcon
    exact hne (congrArg String.data hcon)

/-- When the cell contains a digit, the reduced identifier is a non-empty
digit string. -/
theorem bibidOf_digits (cell : String) (h : cell.data.any Char.isDigit = true) :
    digitsOnly (bibidOf cell) = true := by
  unfold bibidOf
  cases hr : firstDigitRunC cell.data with
  | none =>
    have := firstDigitRunC_some _ h
    rw [hr] at this
    cases this
  | some r =>
    obtain ⟨hne, hall⟩ := firstDigitRunC_digits _ _ hr
    unfold digitsOnly
    simp [hall, List.isEmpty_iff, hne]

/-- When the cell contains no digit, the identifier is the raw cell text. -/
theorem bibidOf_raw (cell : String) (h : cell.data.any Char.isDigit = false) :
    bibidOf cell = cell := by
  unfold bibidOf
  rw [firstDigitRunC_none _ h]

/-- C2 as amended: every accepted input row (enough columns, non-empty
trimmed identifier cell) yields exactly one record with a non-empty
identifier; the identifier is the all-digit first digit run when the cell
contains a digit, and the raw trimmed cell text otherwise. -/
theorem parse_csv_accepted_row (b t : Nat) (row : List String)
    (hlen : max b t < row.length)
    (hid : pyStrip (row.getD b "") ≠ "") :
    ∃ rec, parseCsvRow b t row = some rec ∧ rec.bibid ≠ "" ∧
      ((pyStrip (row.getD b "")).data.any Char.isDigit = true →
        digitsOnly rec.bibid = true) ∧
      ((pyStrip (row.getD b "")).data.any Char.isDigit = false →
        rec.bibid = pyStrip (row.getD b "")) := by
  refine ⟨⟨bibidOf (pyStrip (row.getD b "")), pyStrip (row.getD t "")⟩, ?_,
    bibidOf_ne _ hid, fun hd => bibidOf_digits _ hd, fun hd => bibidOf_raw _ hd⟩
  unfold parseCsvRow
  rw [if_pos hlen, if_pos hid]

/-- C2 witness: the spec's own scenario row accepted at columns 0 and 1. -/
theorem parse_csv_accepted_row_witness :
    max 0 1 < (["12345 copy 2", "Demo Book"] : List String).length ∧
    pyStrip ((["12345 copy 2", "Demo Book"] : List String).getD 0 "") ≠ "" ∧
    (∃ rec, parseCsvRow 0 1 ["12345 copy 2", "Demo Book"] = some rec ∧
      rec.bibid ≠ "" ∧
      ((pyStrip ((["12345 copy 2", "Demo Book"] : List String).getD 0 "")).data.any
          Char.isDigit = true → digitsOnly rec.bibid = true) ∧
      ((pyStrip ((["12345 copy 2", "Demo Book"] : List String).getD 0 "")).data.any
          Char.isDigit = false →
        rec.bibid = pyStrip ((["12345 copy 2", "Demo Book"] : List String).getD 0 ""))) :=
  ⟨by decide, by decide,
    parse_csv_accepted_row 0 1 ["12345 copy 2", "Demo Book"] (by decide) (by decide)⟩

/-! ## C3 -/

/-- C3 counterexample: a record whose stored LCCN carries surrounding
whitespace emerges from the stage-2 pass-through with the trimmed LCCN,
not an identical one. -/
theorem stage2_trims_stored_lccn_cex :
    (run_stage2_step (fun _ => none) (fun _ => none)
        ⟨"1", "T", "X", " 123 "⟩).out = some ⟨"1", "T", "X", "123"⟩ ∧
    ("123" : String) ≠ " 123 " :=
  ⟨by decide, by decide⟩

/-- C3 as amended: a stage-2 input record with a non-empty title whose LCCN
is non-empty after trimming passes through as exactly one output row with
BibID, Title and ISBN unchanged and the trimmed LCCN; no lookup is
attempted and no stats counter is incremented. -/
theorem stage2_passthrough (f g : String → Option String) (r : CsvRow)
    (ht : r.title ≠ "") (hl : pyStrip r.lccn ≠ "") :
    run_stage2_step f g r =
      ⟨some ⟨r.bibid, r.title, r.isbn, pyStrip r.lccn⟩, 0, 0, 0, 0, false⟩ := by
  unfold run_stage2_step
  rw [if_neg ht, if_pos hl]

/-- C3 witness: a concrete record with a stored LCCN passes through. -/
theorem stage2_passthrough_witness :
    ("T" : String) ≠ "" ∧ pyStrip " 5 " ≠ "" ∧
    run_stage2_step (fun _ => none) (fun _ => none) ⟨"1", "T", "9", " 5 "⟩ =
      ⟨some ⟨"1", "T", "9", pyStrip " 5 "⟩, 0, 0, 0, 0, false⟩ :=
  ⟨by decide, by decide,
    stage2_passthrough (fun _ => none) (fun _ => none) ⟨"1", "T", "9", " 5 "⟩
      (by decide) (by decide)⟩

/-! ## C4 -/

/-- C4: every row written by the stage-3 loop carries exactly one of the
five statuses, and its content cell is non-empty exactly when the status
is `Found`. -/
theorem status_exclusive_content_iff (oracle : String → Option (Option XmlE))
    (e : CsvRow) :
    statusList.count (process_505_entry oracle e).status = 1 ∧
    ((process_505_entry oracle e).content ≠ "" ↔
      (process_505_entry oracle e).status = "Found") := by
  unfold process_505_entry
  split
  · exact ⟨(by decide : statusList.count "No LCCN available" = 1), by simp⟩
  · split
    · exact ⟨(by decide : statusList.count "Page not found or error" = 1), by simp⟩
    · split
      · exact ⟨(by decide : statusList.count "No 505 tag found" = 1), by simp⟩
      · split
        · exact ⟨(by decide : statusList.count "Empty 505 tag" = 1), by simp⟩
        · rename_i hc
          exact ⟨(by decide : statusList.count "Found" = 1), by simp [hc]⟩

/-! ## C5 -/

/-- C5: when strategy (a) yields nothing and strategy (b) yields a value,
the extractor returns strategy (b)'s value without consulting (c)/(d). -/
theorem lccn_extraction_order (doc : List Node) (v : String)
    (h1 : lccnTry1 doc = none) (h2 : lccnTry2 doc = some v) :
    extract_lccn_from_html doc = some v := by
  unfold extract_lccn_from_html
  rw [h1, h2]

/-- A page with only an `LCCN Permalink` block: strategy (a) fails and
strategy (b) extracts the permalink digits. -/
def permalinkDoc : List Node :=
  [.el "div" ["items-wrapper"] []
    [.el "h3" ["item-title"] [] [.txt " LCCN Permalink "],
     .el "ul" ["item-description"] []
       [.el "a" [] [("id", "permalink"), ("href", "https://lccn.loc.gov/2023123456")]
         [.txt "https://lccn.loc.gov/2023123456"]]]]

/-- C5 witness: the permalink page at the concrete document. -/
theorem lccn_extraction_order_witness :
    lccnTry1 permalinkDoc = none ∧
    lccnTry2 permalinkDoc = some "2023123456" ∧
    extract_lccn_from_html permalinkDoc = some "2023123456" :=
  ⟨by decide, by decide,
    lccn_extraction_order permalinkDoc "2023123456" (by decide) (by decide)⟩

/-! ## C6 -/

/-- The spec scenario document: two 505 datafields, the first with
subfields `a="Pt.1"` and `g="disc 1"`, the second with `a="Pt.2"`. -/
def marc505Doc : XmlE :=
  .mk "record" [] ""
    [.mk "datafield" [("tag", "505")] ""
      [.mk "subfield" [("code", "a")] "Pt.1" [],
       .mk "subfield" [("code", "g")] "disc 1" []],
     .mk "datafield" [("tag", "505")] ""
      [.mk "subfield" [("code", "a")] "Pt.2" []]]

/-- The scenario document with an extra non-qualifying subfield
(code `z`) inserted into the first field. -/
def marc505DocExtra : XmlE :=
  .mk "record" [] ""
    [.mk "datafield" [("tag", "505")] ""
      [.mk "subfield" [("code", "a")] "Pt.1" [],
       .mk "subfield" [("code", "z")] "IGNORED" [],
       .mk "subfield" [("code", "g")] "disc 1" []],
     .mk "datafield" [("tag", "505")] ""
      [.mk "subfield" [("code", "a")] "Pt.2" []]]

/-- C6: on the scenario document the extraction joins the qualifying
subfield texts with a space per field and the fields with a newline,
producing status `Found`; a subfield whose code is outside
a/g/t/r contributes nothing. -/
theorem extract_505_scenario :
    extract_505_field marc505Doc = some ("Pt.1 disc 1" ++ "\n" ++ "Pt.2") ∧
    process_505_entry (fun _ => some (some marc505Doc)) ⟨"1", "T", "", "12345678"⟩ =
      ⟨"1", "T", "", "12345678", "Found", "Pt.1 disc 1" ++ "\n" ++ "Pt.2"⟩ ∧
    extract_505_field marc505DocExtra = some ("Pt.1 disc 1" ++ "\n" ++ "Pt.2") :=
  ⟨by decide, by decide, by decide⟩

/-! ## C7 -/

/-- Behaviour of the ISBN retry loop when the first `k` attempts hit a
request error and attempt `k` succeeds: the extractor result is returned,
`k + 1` fetches are made, and the sleeps between attempts are
`delay * attemptNumber` for attempt numbers `1 … k`. -/
theorem isbnRetryLoop_spec (oracle : Nat → FetchOut) (delay : ℚ) (doc : List Node) :
    ∀ k a r, k < r → (∀ i, i < k → oracle (a + i) = .reqErr) →
      oracle (a + k) = .ok doc →
      (isbnRetryLoop oracle delay a r).1 = extract_lccn_from_html doc ∧
      fetches (isbnRetryLoop oracle delay a r).2 = k + 1 ∧
      naps (isbnRetryLoop oracle delay a r).2 =
        (List.range k).map (fun i : Nat => delay * (((a : ℚ) + (i : ℚ)) + 1)) := by
  intro k
  induction k with
  | zero =>
    intro a r hk hpre hok
    obtain ⟨r2, rfl⟩ : ∃ r2, r = r2 + 1 := ⟨r - 1, by omega⟩
    rw [Nat.add_zero] at hok
    have heq : isbnRetryLoop oracle delay a (r2 + 1) =
        (extract_lccn_from_html doc, [Ev.get]) := by
      unfold isbnRetryLoop
      rw [hok]
    rw [heq]
    refine ⟨rfl, rfl, by simp [naps]⟩
  | succ k ih =>
    intro a r hk hpre hok
    obtain ⟨r2, rfl⟩ : ∃ r2, r = r2 + 1 := ⟨r - 1, by omega⟩
    have h0 : oracle a = .reqErr := by
      have := hpre 0 (Nat.succ_pos k)
      rwa [Nat.add_zero] at this
    have hr2 : ¬(r2 = 0) := by omega
    have hpre2 : ∀ i, i < k → oracle (a + 1 + i) = .reqErr := by
      intro i hi
      have := hpre (i + 1) (by omega)
      rwa [show a + (i + 1) = a + 1 + i by omega] at this
    have hok2 : oracle (a + 1 + k) = .ok doc := by
      rwa [show a + (k + 1) = a + 1 + k by omega] at hok
    obtain ⟨ih1, ih2, ih3⟩ := ih (a + 1) r2 (by omega) hpre2 hok2
    have heq : isbnRetryLoop oracle delay a (r2 + 1) =
        ((isbnRetryLoop oracle delay (a + 1) r2).1,
          .get :: .sleep (delay * ((a : ℚ) + 1)) ::
            (isbnRetryLoop oracle delay (a + 1) r2).2) := by
      simp only [isbnRetryLoop, h0]
      rw [if_neg hr2]
    rw [heq]
    refine ⟨ih1, ?_, ?_⟩
    · simp [fetches, ih2]
    · simp only [naps, ih3, List.range_succ_eq_map, List.map_cons, List.map_map]
      congr 1
      · push_cast
        ring
      · congr 1
        funext i
        simp only [Function.comp_apply]
        push_cast
        ring

/-- The ISBN retry loop makes at most `r` fetches, whatever the outcomes. -/
theorem isbnRetryLoop_fetch_bound (oracle : Nat → FetchOut) (delay : ℚ) :
    ∀ r a, fetches (isbnRetryLoop oracle delay a r).2 ≤ r := by
  intro r
  induction r with
  | zero => intro a; simp [isbnRetryLoop, fetches]
  | succ r2 ih =>
    intro a
    simp only [isbnRetryLoop]
    cases ho : oracle a with
    | ok doc => simp [fetches]
    | exn => simp [fetches]
    | reqErr =>
      by_cases hr : r2 = 0
      · simp [hr, fetches]
      · rw [if_neg hr]
        have hb := ih (a + 1)
        simp only [fetches]
        omega

/-- C7: only the stage-2 ISBN search retries — with the first `k` attempts
failing transiently and attempt `k` succeeding it makes `k + 1` fetches
(at most `maxRetries` for any outcomes) and sleeps `delay * attemptNumber`
between attempts, returning the extractor's result; the title search and
the stage-1/stage-3 fetches are attempted exactly once each (at most one
search fetch plus one detail fetch for the title path) and fail on any
error. -/
theorem retry_policy
    (oracle : Nat → FetchOut) (delay : ℚ) (maxRetries k : Nat) (isbn : String)
    (doc : List Node) (searchOut detailOut : FetchOut) (title : String)
    (m : MarcOut) (fetched : Except String OpacPage)
    (hisbn : keepDigX isbn ≠ "")
    (htitle : pyStrip title ≠ "")
    (hk : k < maxRetries)
    (hpre : ∀ i, i < k → oracle i = .reqErr)
    (hok : oracle k = .ok doc) :
    (scrape_lccn_by_isbn oracle delay maxRetries isbn).1 =
      extract_lccn_from_html doc ∧
    fetches (scrape_lccn_by_isbn oracle delay maxRetries isbn).2 = k + 1 ∧
    naps (scrape_lccn_by_isbn oracle delay maxRetries isbn).2 =
      (List.range k).map (fun i : Nat => delay * ((i : ℚ) + 1)) ∧
    (∀ oracle2 : Nat → FetchOut,
      fetches (scrape_lccn_by_isbn oracle2 delay maxRetries isbn).2 ≤ maxRetries) ∧
    fetches (scrape_lccn_by_title searchOut detailOut delay title).2 ≤ 2 ∧
    (searchOut = .reqErr →
      scrape_lccn_by_title searchOut detailOut delay title = (none, [.get])) ∧
    (searchOut = .exn →
      scrape_lccn_by_title searchOut detailOut delay title = (none, [.get])) ∧
    fetches (fetch_marcxml m).2 = 1 ∧
    fetches (scrape_catalog_record fetched).2 = 1 := by
  have hmain := isbnRetryLoop_spec oracle delay doc k 0 maxRetries hk
    (by intro i hi; rw [Nat.zero_add]; exact hpre i hi)
    (by rw [Nat.zero_add]; exact hok)
  simp only [scrape_lccn_by_isbn, if_neg hisbn]
  refine ⟨hmain.1, hmain.2.1, ?_, ?_, ?_, ?_, ?_, ?_, ?_⟩
  · rw [hmain.2.2]
    congr 1
    funext i
    norm_num
  · intro oracle2
    exact isbnRetryLoop_fetch_bound oracle2 delay maxRetries 0
  · unfold scrape_lccn_by_title
    rw [if_neg htitle]
    cases searchOut with
    | reqErr => simp [fetches]
    | exn => simp [fetches]
    | ok d =>
      cases hh : (findAllTC d "table" "browseList").head? with
      | none => simp [hh, fetches]
      | some tbl =>
        cases h2 : findTC tbl "a" "browse-result" with
        | none => simp [hh, h2, fetches]
        | some link =>
          cases h3 : attrOf link "href" with
          | none => simp [hh, h2, h3, fetches]
          | some href =>
            cases detailOut <;> simp [hh, h2, h3, fetches]
  · intro hs
    subst hs
    unfold scrape_lccn_by_title
    rw [if_neg htitle]
  · intro hs
    subst hs
    unfold scrape_lccn_by_title
    rw [if_neg htitle]
  · cases m <;> rfl
  · unfold scrape_catalog_record
    cases hb : scrapeBody fetched with
    | ok v => obtain ⟨i, l⟩ := v; rfl
    | error e => rfl

/-- The C7 witness oracle: the first attempt hits a request error and the
second succeeds with an empty page. -/
def oracleW : Nat → FetchOut := fun n => match n with
  | 0 => .reqErr
  | _ => .ok []

/-- C7 witness: concrete retry run (`maxRetries = 3`, one transient failure,
then success), plus the single-attempt fetch sites. -/
theorem retry_policy_witness :
    keepDigX "9780134685991" ≠ "" ∧
    pyStrip "Demo Book" ≠ "" ∧
    1 < 3 ∧
    (∀ i, i < 1 → oracleW i = FetchOut.reqErr) ∧
    oracleW 1 = FetchOut.ok [] ∧
    ((scrape_lccn_by_isbn oracleW 1 3 "9780134685991").1 =
        extract_lccn_from_html [] ∧
      fetches (scrape_lccn_by_isbn oracleW 1 3 "9780134685991").2 = 1 + 1 ∧
      naps (scrape_lccn_by_isbn oracleW 1 3 "9780134685991").2 =
        (List.range 1).map (fun i : Nat => (1 : ℚ) * ((i : ℚ) + 1)) ∧
      (∀ oracle2 : Nat → FetchOut,
        fetches (scrape_lccn_by_isbn oracle2 1 3 "9780134685991").2 ≤ 3) ∧
      fetches (scrape_lccn_by_title .reqErr .exn 1 "Demo Book").2 ≤ 2 ∧
      (FetchOut.reqErr = FetchOut.reqErr →
        scrape_lccn_by_title .reqErr .exn 1 "Demo Book" = (none, [.get])) ∧
      (FetchOut.reqErr = FetchOut.exn →
        scrape_lccn_by_title .reqErr .exn 1 "Demo Book" = (none, [.get])) ∧
      fetches (fetch_marcxml .httpErr).2 = 1 ∧
      fetches (scrape_catalog_record (.error "timeout")).2 = 1) :=
  ⟨by decide, by decide, by decide,
    fun i hi => by interval_cases i; rfl, rfl,
    retry_policy oracleW 1 3 1 "9780134685991" [] .reqErr .exn "Demo Book"
      .httpErr (.error "timeout") (by decide) (by decide) (by decide)
      (fun i hi => by interval_cases i; rfl) rfl⟩

/-! ## C8 -/

/-- C8 counterexample: a record that reaches the lookup path and fails both
searches increments two of the four stage-2 counters — `lookup-required`
and `lookup-failed` — not exactly one. -/
theorem stage2_two_counters_cex :
    (run_stage2_step (fun _ => none) (fun _ => none) ⟨"", "T", "1", ""⟩).req = 1 ∧
    (run_stage2_step (fun _ => none) (fun _ => none) ⟨"", "T", "1", ""⟩).failed = 1 ∧
    (run_stage2_step (fun _ => none) (fun _ => none) ⟨"", "T", "1", ""⟩).req +
      (run_stage2_step (fun _ => none) (fun _ => none) ⟨"", "T", "1", ""⟩).isbnOk +
      (run_stage2_step (fun _ => none) (fun _ => none) ⟨"", "T", "1", ""⟩).titleOk +
      (run_stage2_step (fun _ => none) (fun _ => none) ⟨"", "T", "1", ""⟩).failed = 2 :=
  ⟨by decide, by decide, by decide⟩

/-- C8 as amended: for every record on which a lookup is attempted, the
`lookup-required` counter is incremented exactly once, and exactly one of
the three outcome counters {isbn-search-success, title-search-success,
lookup-failed} is incremented — those three are mutually exclusive. -/
theorem stage2_attempt_stats (f g : String → Option String) (r : CsvRow)
    (h : (run_stage2_step f g r).lookedUp = true) :
    (run_stage2_step f g r).req = 1 ∧
    (run_stage2_step f g r).isbnOk + (run_stage2_step f g r).titleOk +
      (run_stage2_step f g r).failed = 1 := by
  unfold run_stage2_step at h ⊢
  by_cases h1 : r.title = ""
  · rw [if_pos h1] at h; simp at h
  · rw [if_neg h1] at h ⊢
    by_cases h2 : pyStrip r.lccn ≠ ""
    · rw [if_pos h2] at h; simp at h
    · rw [if_neg h2] at h ⊢
      by_cases h3 : pyStrip r.isbn = ""
      · rw [if_pos h3] at h; simp at h
      · rw [if_neg h3] at h ⊢
        cases pyFound (f r.isbn) with
        | some l => exact ⟨rfl, rfl⟩
        | none =>
          cases pyFound (g r.title) with
          | some l => exact ⟨rfl, rfl⟩
          | none => exact ⟨rfl, rfl⟩

/-- C8 witness: a concrete attempted record. -/
theorem stage2_attempt_stats_witness :
    (run_stage2_step (fun _ => none) (fun _ => some "77") ⟨"", "T", "1", ""⟩).lookedUp
      = true ∧
    (run_stage2_step (fun _ => none) (fun _ => some "77") ⟨"", "T", "1", ""⟩).req = 1 ∧
    (run_stage2_step (fun _ => none) (fun _ => some "77") ⟨"", "T", "1", ""⟩).isbnOk +
      (run_stage2_step (fun _ => none) (fun _ => some "77") ⟨"", "T", "1", ""⟩).titleOk +
      (run_stage2_step (fun _ => none) (fun _ => some "77") ⟨"", "T", "1", ""⟩).failed
      = 1 :=
  ⟨by decide,
    stage2_attempt_stats (fun _ => none) (fun _ => some "77") ⟨"", "T", "1", ""⟩
      (by decide)⟩

/-! ## C9 -/

/-- A scraped 020 row and 010 row both yielding a value: the spec's ISBN
cleaning scenario plus an LCCN with trailing descriptive text. -/
def bothPage : OpacPage :=
  [⟨"020", some [⟨"a", .str " 978-0-13-468599-1 "⟩]⟩,
   ⟨"010", some [⟨"a", .str " 2023123456 /r93 "⟩]⟩]

/-- C9 counterexample: a record with both an ISBN and an LCCN increments
three of the five stage-1 counters (`has-both`, `has-ISBN`, `has-LCCN`),
not exactly one. -/
theorem stage1_three_counters_cex :
    (scrape_catalog_record (.ok bothPage)).1 =
      ⟨["9780134685991"], ["2023123456"], none⟩ ∧
    countPos5 (stage1Delta (scrape_catalog_record (.ok bothPage)).1) = 3 :=
  ⟨by decide, by decide⟩

/-- C9 as amended: the five classifications are mutually exclusive per
record with error taking precedence, and exactly one counter is
incremented — except that a record with both identifiers also increments
`has-ISBN` and `has-LCCN` along with `has-both`, so three counters are
touched in that case. -/
theorem stage1_stats_classification (r : ScrapeRes) :
    countPos5 (stage1Delta r) =
      (if !errTruthy r && !r.isbns.isEmpty && !r.lccns.isEmpty then 3 else 1) ∧
    (stage1Delta r).both ≤ (stage1Delta r).isbn ∧
    (stage1Delta r).both ≤ (stage1Delta r).lccn ∧
    (stage1Delta r).errs * (stage1Delta r).both = 0 ∧
    (stage1Delta r).errs * (stage1Delta r).isbn = 0 ∧
    (stage1Delta r).errs * (stage1Delta r).lccn = 0 ∧
    (stage1Delta r).errs * (stage1Delta r).neither = 0 ∧
    (stage1Delta r).neither * (stage1Delta r).both = 0 ∧
    (stage1Delta r).neither * (stage1Delta r).isbn = 0 ∧
    (stage1Delta r).neither * (stage1Delta r).lccn = 0 := by
  unfold stage1Delta countPos5
  cases he : errTruthy r <;> cases hi : r.isbns.isEmpty <;>
    cases hl : r.lccns.isEmpty <;> simp [he, hi, hl]

/-! ## C10 -/

/-- C10: the catalog-record scrape is all-or-nothing — whenever it reports
an error, both identifier lists are empty, even if identifiers had been
collected before the exception was raised. -/
theorem scrape_all_or_nothing (fetched : Except String OpacPage)
    (h : (scrape_catalog_record fetched).1.err ≠ none) :
    (scrape_catalog_record fetched).1.isbns = [] ∧
    (scrape_catalog_record fetched).1.lccns = [] := by
  unfold scrape_catalog_record at h ⊢
  cases hb : scrapeBody fetched with
  | ok v =>
    obtain ⟨i, l⟩ := v
    rw [hb] at h
    exact absurd rfl h
  | error e => exact ⟨rfl, rfl⟩

/-- A page whose 020 row collects an ISBN before the 010 row raises
`IndexError` (`''.split()[0]` on a whitespace-only sibling). -/
def failPage : OpacPage :=
  [⟨"020", some [⟨"a", .str " 12X "⟩]⟩,
   ⟨"010", some [⟨"a", .str "   "⟩]⟩]

/-- C10 witness: the partially collected ISBN is discarded when the later
row raises. -/
theorem scrape_all_or_nothing_witness :
    (scrape_catalog_record (.ok failPage)).1.err ≠ none ∧
    (scrape_catalog_record (.ok failPage)).1.isbns = [] ∧
    (scrape_catalog_record (.ok failPage)).1.lccns = [] :=
  ⟨by decide, scrape_all_or_nothing (.ok failPage) (by decide)⟩

end TofC
